import Mathlib

/-!
Shallow embedding of the Kebapp token-sale component (`TokenSaleDetails`):
the amount validator `validateAmount`, the payload builder
`createInstructionData`, and the submission routine `handleInvest`,
together with the fragment of JavaScript number semantics they rely on
(`Number(string)` coercion, comparisons, `Math.floor`, `BigInt`
conversion, `DataView.setBigUint64`).

JavaScript numbers are modelled as `JSNum`: NaN, the two infinities, and
finite values idealised as rationals.  Binary64 rounding is abstracted
away; every concrete value appearing in the development (1.5, 1e-8, 5000,
16, 100, 1e9 and their products) is exactly representable in binary64, so
the idealisation agrees with the runtime on them.
-/

namespace Kebapp

/-- A JavaScript number: NaN, +Infinity, -Infinity, or a finite value
(idealised as a rational). -/
inductive JSNum where
  | nan
  | inf
  | negInf
  | finite (q : ℚ)
  deriving DecidableEq, Repr

/-- JavaScript `isNaN` on an already-coerced number. -/
def jsIsNaN : JSNum → Bool
  | .nan => true
  | _ => false

/-- JavaScript strict `<` on numbers: false whenever either side is NaN,
the usual extended-real order otherwise. -/
def jsLt : JSNum → JSNum → Bool
  | .nan, _ => false
  | _, .nan => false
  | .inf, _ => false
  | .negInf, .negInf => false
  | .negInf, _ => true
  | .finite _, .negInf => false
  | .finite _, .inf => true
  | .finite a, .finite b => decide (a < b)

/-- JavaScript `<=` on numbers: false whenever either side is NaN,
otherwise the negation of the reversed strict order. -/
def jsLe (a b : JSNum) : Bool :=
  if jsIsNaN a || jsIsNaN b then false else !(jsLt b a)

/-- JavaScript multiplication on numbers (NaN and infinity propagation per
IEEE rules; finite products idealised as exact rational products). -/
def jsMul : JSNum → JSNum → JSNum
  | .nan, _ => .nan
  | _, .nan => .nan
  | .inf, .inf => .inf
  | .inf, .negInf => .negInf
  | .negInf, .inf => .negInf
  | .negInf, .negInf => .inf
  | .inf, .finite q => if 0 < q then .inf else if q < 0 then .negInf else .nan
  | .negInf, .finite q => if 0 < q then .negInf else if q < 0 then .inf else .nan
  | .finite q, .inf => if 0 < q then .inf else if q < 0 then .negInf else .nan
  | .finite q, .negInf => if 0 < q then .negInf else if q < 0 then .inf else .nan
  | .finite a, .finite b => .finite (a * b)

/-- JavaScript `Math.floor`: identity on NaN and the infinities, floor on
finite values. -/
def jsFloor : JSNum → JSNum
  | .nan => .nan
  | .inf => .inf
  | .negInf => .negInf
  | .finite q => .finite (⌊q⌋ : ℚ)

/-- JavaScript `BigInt(x)` on a number `x`: succeeds exactly on
integer-valued finite numbers, throws (modelled as `none`) on NaN, the
infinities and fractional values. -/
def jsToBigInt : JSNum → Option ℤ
  | .finite q => if q.den = 1 then some q.num else none
  | _ => none

/-! ### The string-to-number coercion `Number(value)`

`validateAmount` and `handleInvest` both coerce the raw input string with
the JavaScript `Number` function.  The ECMAScript StringNumericLiteral
grammar is embedded below: surrounding white space is trimmed, the empty
remainder coerces to 0, a `0x`/`0o`/`0b` prefix introduces an unsigned
radix literal, and otherwise an optionally signed decimal literal
(digits, optional fraction, optional exponent, or the word Infinity) is
parsed; anything else coerces to NaN. -/

/-- The JavaScript white-space and line-terminator characters recognised
by the StringNumericLiteral grammar (the common set: TAB, LF, VT, FF, CR,
SP, NBSP, BOM, LS, PS). -/
def isJsWhitespace (c : Char) : Bool :=
  c = ' ' || c = '\t' || c = '\n' || c = '\r' || c = '\x0b' || c = '\x0c' ||
  c = '\u00A0' || c = '\uFEFF' || c = '\u2028' || c = '\u2029'

/-- Trim JavaScript white space from both ends of a character list. -/
def trimJs (cs : List Char) : List Char :=
  ((cs.dropWhile isJsWhitespace).reverse.dropWhile isJsWhitespace).reverse

/-- The numeric value of a digit character in a given radix, if valid. -/
def digitValInRadix (radix : ℕ) (c : Char) : Option ℕ :=
  let v : ℕ :=
    if '0' ≤ c && c ≤ '9' then c.toNat - '0'.toNat
    else if 'a' ≤ c && c ≤ 'f' then c.toNat - 'a'.toNat + 10
    else if 'A' ≤ c && c ≤ 'F' then c.toNat - 'A'.toNat + 10
    else radix
  if v < radix then some v else none

/-- Accumulate a digit string in a given radix; `none` if empty or if any
character is not a digit of the radix. -/
def parseRadixDigits (radix : ℕ) : List Char → Option ℕ
  | [] => none
  | cs => cs.foldl
      (fun acc c => do
        let a ← acc
        let v ← digitValInRadix radix c
        pure (a * radix + v))
      (some 0)

/-- The value of a string of decimal digits. -/
def digitsToNat (ds : List Char) : ℕ :=
  ds.foldl (fun acc c => acc * 10 + (c.toNat - '0'.toNat)) 0

/-- Parse the optional ExponentPart (`e`/`E`, optional sign, digits) that
must consume the entire remainder; `none` on malformed input. -/
def parseExpPart : List Char → Option ℤ
  | [] => some 0
  | c :: rest =>
    if c = 'e' || c = 'E' then
      match rest with
      | '+' :: ds =>
          if ds ≠ [] && ds.all Char.isDigit then some (digitsToNat ds : ℤ) else none
      | '-' :: ds =>
          if ds ≠ [] && ds.all Char.isDigit then some (-(digitsToNat ds : ℤ)) else none
      | ds =>
          if ds ≠ [] && ds.all Char.isDigit then some (digitsToNat ds : ℤ) else none
    else none

/-- Parse an unsigned decimal literal (digits, optional `.` and fraction
digits, optional exponent), the whole list; `none` on malformed input. -/
def parseDecLit (cs : List Char) : Option ℚ :=
  let intPart := cs.takeWhile Char.isDigit
  let rest := cs.dropWhile Char.isDigit
  match rest with
  | '.' :: rest2 =>
      let fracPart := rest2.takeWhile Char.isDigit
      let rest3 := rest2.dropWhile Char.isDigit
      if intPart = [] && fracPart = [] then none
      else do
        let e ← parseExpPart rest3
        pure (((digitsToNat intPart : ℚ) +
               (digitsToNat fracPart : ℚ) / (10 : ℚ) ^ fracPart.length) * (10 : ℚ) ^ e)
  | _ =>
      if intPart = [] then none
      else do
        let e ← parseExpPart rest
        pure ((digitsToNat intPart : ℚ) * (10 : ℚ) ^ e)

/-- Parse an unsigned StrDecimalLiteral body (Infinity or a decimal
literal), producing a JavaScript number; `neg` records a leading minus. -/
def parseUnsignedDec (neg : Bool) (cs : List Char) : JSNum :=
  if cs = "Infinity".toList then (if neg then .negInf else .inf)
  else
    match parseDecLit cs with
    | some q => .finite (if neg then -q else q)
    | none => .nan

/-- Parse a signed StrDecimalLiteral. -/
def parseSignedDec : List Char → JSNum
  | '+' :: rest => parseUnsignedDec false rest
  | '-' :: rest => parseUnsignedDec true rest
  | cs => parseUnsignedDec false cs

/-- Parse a trimmed StrNumericLiteral: empty is 0, `0x`/`0o`/`0b` prefixes
introduce unsigned radix literals, everything else is a signed decimal
literal. -/
def parseStrNumeric : List Char → JSNum
  | [] => .finite 0
  | '0' :: c :: ds =>
      if c = 'x' || c = 'X' then
        match parseRadixDigits 16 ds with
        | some v => .finite (v : ℚ)
        | none => .nan
      else if c = 'o' || c = 'O' then
        match parseRadixDigits 8 ds with
        | some v => .finite (v : ℚ)
        | none => .nan
      else if c = 'b' || c = 'B' then
        match parseRadixDigits 2 ds with
        | some v => .finite (v : ℚ)
        | none => .nan
      else parseSignedDec ('0' :: c :: ds)
  | cs => parseSignedDec cs

/-- JavaScript `Number(value)` on a string: trim, then parse the
StringNumericLiteral. -/
def jsStringToNumber (s : String) : JSNum :=
  parseStrNumeric (trimJs s.toList)

/-! ### Program constants (source lines 19-24) -/

/-- Investment lower bound (source: `MIN_INVESTMENT = 0.00000001`). -/
def MIN_INVESTMENT : ℚ := 1 / 100000000

/-- Investment upper bound (source: `MAX_INVESTMENT = 5000`). -/
def MAX_INVESTMENT : ℚ := 5000

/-- Lamports per SOL, the external library constant (1e9). -/
def LAMPORTS_PER_SOL : ℚ := 1000000000

/-! ### The amount validator (source lines 58-82)

`validateAmount` returns a boolean and stores an error message with
`setError`.  `VResult.err msg` models `setError(msg); return false`;
`VResult.ok n` models `setError(''); return true` where `n` is the coerced
`numAmount`.  The template literal for the minimum renders `0.00000001`
the way JavaScript prints it, namely `1e-8`. -/

/-- Outcome of `validateAmount`: `err msg` is `setError(msg); return
false`, `ok n` is `setError(''); return true` with `n` the coerced number. -/
inductive VResult where
  | err (msg : String)
  | ok (n : JSNum)
  deriving DecidableEq, Repr

/-- The stored error string after a validation call: the message on
failure, the empty string on success (the source calls `setError('')`). -/
def VResult.errorAfter : VResult → String
  | .err m => m
  | .ok _ => ""

/-- The validator of source lines 58-82, applied to the already-coerced
number `numAmount = Number(value)` and the context flag `isPresaleEnded`. -/
def validateAmount (isPresaleEnded : Bool) (numAmount : JSNum) : VResult :=
  if isPresaleEnded then .err "Presale has ended"
  else if jsIsNaN numAmount || jsLe numAmount (.finite 0) then
    .err "Please enter a valid amount"
  else if jsLt numAmount (.finite MIN_INVESTMENT) then
    .err "Minimum investment is 1e-8 SOL"
  else if jsLt (.finite MAX_INVESTMENT) numAmount then
    .err "Maximum investment is 5000 SOL"
  else .ok numAmount

/-! ### The payload builder (source lines 44-56)

`createInstructionData` allocates a 9-byte array, writes the opcode 0 at
index 0, converts the lamport count with `BigInt(lamports)` (which throws
unless the number is integer-valued) and writes it with
`DataView.setBigUint64(0, ..., true)` at offset 1.  `setBigUint64` stores
its argument modulo 2^64 (the ECMAScript ToBigUint64 conversion): no
range check is performed and out-of-range values wrap silently. -/

/-- The little-endian byte serialisation of `v mod 2^64` produced by
`DataView.setBigUint64(0, v, true)` on an 8-byte buffer. -/
def leBytes8 (v : ℕ) : List ℕ :=
  [v % 256, v / 256 % 256, v / 256 ^ 2 % 256, v / 256 ^ 3 % 256,
   v / 256 ^ 4 % 256, v / 256 ^ 5 % 256, v / 256 ^ 6 % 256, v / 256 ^ 7 % 256]

/-- Decode a byte list as a little-endian unsigned integer. -/
def decodeLE (bs : List ℕ) : ℕ :=
  bs.foldr (fun b acc => b + 256 * acc) 0

/-- The builder of source lines 44-56: the 9-byte instruction payload for
a lamport count, or `none` when `BigInt(lamports)` throws (non-integer or
non-finite input).  The stored 64-bit field is the ToBigUint64 image,
i.e. the value modulo 2^64. -/
def createInstructionData (lamports : JSNum) : Option (List ℕ) :=
  (jsToBigInt lamports).map fun z => 0 :: leBytes8 ((z % 2 ^ 64).toNat)

/-! ### The submission routine (source lines 89-162)

`handleInvest` is one asynchronous run over the component state and the
injected collaborators.  The embedding fixes, per run, the outcome each
collaborator call would produce (`Env`), and returns the final component
state, the ordered trace of observable effects, and the run outcome.
State writes `setIsProcessing` appear in the trace as well so that the
set/clear discipline of the processing flag is itself observable. -/

/-- A JavaScript exception thrown by a collaborator call: a
`SendTransactionError`, an ordinary `Error` with a message, or a thrown
non-`Error` value. -/
inductive JsError where
  | sendTx (msg : String)
  | err (msg : String)
  | nonError
  deriving DecidableEq, Repr

/-- The error that terminates a `handleInvest` try block: the
`Wallet not found` throw, the insufficient-balance throw (recording the
required lamports and the available balance), the `BigInt` conversion
throw inside `createInstructionData`, or an exception propagated from a
collaborator. -/
inductive RunError where
  | walletNotFound
  | insufficientBalance (required : JSNum) (available : ℤ)
  | bigIntConvert
  | env (e : JsError)
  deriving DecidableEq, Repr

/-- The blockhash record returned by `getLatestBlockhash`. -/
structure BlockhashInfo where
  blockhash : String
  lastValidBlockHeight : ℕ
  deriving DecidableEq, Repr

/-- The per-run environment: component context values and the outcome of
each collaborator call, should the run reach it. -/
structure Env where
  walletAddress : Option String
  isPresaleEnded : Bool
  windowSolana : Bool
  getBalanceRes : Except JsError ℤ
  getLatestBlockhashRes : Except JsError BlockhashInfo
  signTransactionRes : Except JsError Unit
  sendRawTransactionRes : Except JsError String
  confirmTransactionRes : Except JsError Unit
  deriving Repr

/-- The component state touched by `handleInvest`: the amount input
string, the stored validation error, and the processing flag. -/
structure CompState where
  amount : String
  error : String
  isProcessing : Bool
  deriving DecidableEq, Repr

/-- An observable effect of a `handleInvest` run, in execution order.
`notifyErrorMsg` is the validation-failure notification; per JavaScript
closure semantics it carries the `error` state variable captured at
render time, not the message just stored by `validateAmount`. -/
inductive Effect where
  | notifyWarning (msg : String)
  | notifyErrorMsg (msg : String)
  | notifyError (e : RunError)
  | notifySuccess (msg : String)
  | setProcessing (b : Bool)
  | getBalance (addr : String)
  | getLatestBlockhash
  | signTransaction
  | sendRawTransaction
  | confirmTransaction
  | addDeposit (n : JSNum)
  deriving DecidableEq, Repr

/-- The outcome of a `handleInvest` run: the two early returns, success
with the returned signature, or a caught error. -/
inductive RunResult where
  | noWallet
  | invalidAmount
  | success (signature : String)
  | failed (e : RunError)
  deriving DecidableEq, Repr

/-- The try block of `handleInvest` (source lines 101-151) up to and
including `confirmTransaction`: the collaborator-call effects it emits,
and either the broadcast signature or the thrown error.  `numAmount` is
the coerced amount `Number(amount)`; the lamport count is
`Math.floor(numAmount * LAMPORTS_PER_SOL)`. -/
def runTry (env : Env) (w : String) (numAmount : JSNum) :
    List Effect × Except RunError String :=
  if !env.windowSolana then ([], .error .walletNotFound)
  else
    let lamports := jsFloor (jsMul numAmount (.finite LAMPORTS_PER_SOL))
    match env.getBalanceRes with
    | .error e => ([.getBalance w], .error (.env e))
    | .ok balance =>
      if jsLt (.finite (balance : ℚ)) lamports then
        ([.getBalance w], .error (.insufficientBalance lamports balance))
      else
        match createInstructionData lamports with
        | none => ([.getBalance w], .error .bigIntConvert)
        | some _data =>
          match env.getLatestBlockhashRes with
          | .error e => ([.getBalance w, .getLatestBlockhash], .error (.env e))
          | .ok _bh =>
            match env.signTransactionRes with
            | .error e =>
                ([.getBalance w, .getLatestBlockhash, .signTransaction], .error (.env e))
            | .ok _ =>
              match env.sendRawTransactionRes with
              | .error e =>
                  ([.getBalance w, .getLatestBlockhash, .signTransaction,
                    .sendRawTransaction], .error (.env e))
              | .ok signature =>
                match env.confirmTransactionRes with
                | .error e =>
                    ([.getBalance w, .getLatestBlockhash, .signTransaction,
                      .sendRawTransaction, .confirmTransaction], .error (.env e))
                | .ok _ =>
                    ([.getBalance w, .getLatestBlockhash, .signTransaction,
                      .sendRawTransaction, .confirmTransaction], .ok signature)

/-- The submission routine of source lines 89-162.  Early return when no
wallet is connected; early return (with the stale-closure notification)
when validation fails; otherwise set the processing flag, run the try
block, on success notify, record the deposit `Number(amount)` and clear
the input, on a caught error notify with the error, and in both cases
clear the processing flag in the `finally` block. -/
def handleInvest (env : Env) (s : CompState) : CompState × List Effect × RunResult :=
  match env.walletAddress with
  | none => (s, [.notifyWarning "Please connect your wallet"], .noWallet)
  | some w =>
    let numAmount := jsStringToNumber s.amount
    match validateAmount env.isPresaleEnded numAmount with
    | .err msg => ({ s with error := msg }, [.notifyErrorMsg s.error], .invalidAmount)
    | .ok _ =>
      let t := runTry env w numAmount
      match t.2 with
      | .ok signature =>
          ({ s with error := "", amount := "", isProcessing := false },
           .setProcessing true :: t.1 ++
             [.notifySuccess "Investment successful!", .addDeposit numAmount,
              .setProcessing false],
           .success signature)
      | .error e =>
          ({ s with error := "", isProcessing := false },
           .setProcessing true :: t.1 ++ [.notifyError e, .setProcessing false],
           .failed e)

/-! ### Helper lemmas -/

/-- Decoding the 8 little-endian bytes of `v` recovers `v` modulo 2^64. -/
theorem decodeLE_leBytes8 (v : ℕ) : decodeLE (leBytes8 v) = v % 2 ^ 64 := by
  simp only [decodeLE, leBytes8, List.foldr]
  norm_num
  omega

/-- `leBytes8` always yields 8 bytes. -/
theorem leBytes8_length (v : ℕ) : (leBytes8 v).length = 8 := by
  simp [leBytes8]

/-- On an integer-valued finite number, the builder emits the opcode byte
followed by the little-endian bytes of the value modulo 2^64. -/
theorem createInstructionData_intCast (z : ℤ) :
    createInstructionData (.finite (z : ℚ)) =
      some (0 :: leBytes8 ((z % 2 ^ 64).toNat)) := by
  simp [createInstructionData, jsToBigInt, Rat.den_intCast, Rat.num_intCast]

/-- The lamport pipeline of the submission routine on a finite amount:
multiply by `LAMPORTS_PER_SOL` and floor. -/
theorem jsFloor_jsMul_finite (a : ℚ) :
    jsFloor (jsMul (.finite a) (.finite LAMPORTS_PER_SOL)) =
      .finite ((⌊a * 1000000000⌋ : ℤ) : ℚ) := by
  simp [jsMul, jsFloor, LAMPORTS_PER_SOL]

/-- The floored lamport count of an amount bounded by `MAX_INVESTMENT` is
a non-negative integer below 2^64. -/
theorem floor_lamports_bounds (a : ℚ) (h0 : 0 ≤ a) (hmax : a ≤ MAX_INVESTMENT) :
    0 ≤ ⌊a * 1000000000⌋ ∧ ⌊a * 1000000000⌋ < 2 ^ 64 := by
  constructor
  · exact Int.floor_nonneg.mpr (by positivity)
  · have h1 : a * 1000000000 ≤ 5000000000000 := by
      rw [MAX_INVESTMENT] at hmax
      nlinarith
    have h2 : (⌊a * 1000000000⌋ : ℚ) ≤ 5000000000000 :=
      le_trans (Int.floor_le _) h1
    have h3 : ⌊a * 1000000000⌋ ≤ 5000000000000 := by exact_mod_cast h2
    omega

/-! ### Claim C1 -/

/-- C1: for every validated display amount, the payload built from the
floored lamport count is exactly 9 bytes, byte 0 is the opcode 0, and
bytes 1-8 decoded as a little-endian unsigned 64-bit integer equal
`floor(amount * 1e9)`. -/
theorem c1_payload_shape (a : ℚ)
    (hmin : MIN_INVESTMENT ≤ a) (hmax : a ≤ MAX_INVESTMENT) :
    ∃ p, createInstructionData (jsFloor (jsMul (.finite a) (.finite LAMPORTS_PER_SOL))) =
        some p ∧
      p.length = 9 ∧ p.headI = 0 ∧ ((decodeLE p.tail : ℕ) : ℤ) = ⌊a * 1000000000⌋ := by
  have h0 : 0 ≤ a := le_trans (by rw [MIN_INVESTMENT]; norm_num) hmin
  obtain ⟨hz0, hz1⟩ := floor_lamports_bounds a h0 hmax
  set z := ⌊a * 1000000000⌋ with hzdef
  refine ⟨0 :: leBytes8 ((z % 2 ^ 64).toNat), ?_, ?_, rfl, ?_⟩
  · rw [jsFloor_jsMul_finite, createInstructionData_intCast]
  · simp [leBytes8_length]
  · have hmod : z % 2 ^ 64 = z := Int.emod_eq_of_lt hz0 hz1
    have htn : ((z % 2 ^ 64).toNat : ℤ) = z := by rw [hmod]; omega
    have hlt : (z % 2 ^ 64).toNat < 2 ^ 64 := by omega
    simp only [List.tail_cons, decodeLE_leBytes8]
    rw [Nat.mod_eq_of_lt hlt]
    exact htn

/-- Witness for C1 at the end-to-end scenario amount 1.5: the payload is
the opcode byte 0 followed by 1500000000 in little-endian. -/
theorem c1_payload_shape_witness :
    (MIN_INVESTMENT ≤ (3 / 2 : ℚ) ∧ (3 / 2 : ℚ) ≤ MAX_INVESTMENT) ∧
    (∃ p, createInstructionData
          (jsFloor (jsMul (.finite (3 / 2)) (.finite LAMPORTS_PER_SOL))) = some p ∧
        p.length = 9 ∧ p.headI = 0 ∧
        ((decodeLE p.tail : ℕ) : ℤ) = ⌊(3 / 2 : ℚ) * 1000000000⌋) ∧
    createInstructionData (jsFloor (jsMul (.finite (3 / 2)) (.finite LAMPORTS_PER_SOL))) =
      some [0, 0, 47, 104, 89, 0, 0, 0, 0] := by
  refine ⟨⟨by rw [MIN_INVESTMENT]; norm_num, by rw [MAX_INVESTMENT]; norm_num⟩, ?_, ?_⟩
  · exact c1_payload_shape (3 / 2) (by rw [MIN_INVESTMENT]; norm_num)
      (by rw [MAX_INVESTMENT]; norm_num)
  · with_unfolding_all rfl

/-! ### Claim C5 -/

/-- C5 counterexample: for the negative floored value -1 (and for 2^64,
one past the unsigned 64-bit range) the builder does not signal an
encoding error; it silently emits a 9-byte payload with the value wrapped
modulo 2^64 (all-ones bytes for -1, all-zero bytes for 2^64). -/
theorem c5_counterexample :
    createInstructionData (.finite (-1)) =
        some [0, 255, 255, 255, 255, 255, 255, 255, 255] ∧
      createInstructionData (.finite ((2 : ℚ) ^ 64)) =
        some [0, 0, 0, 0, 0, 0, 0, 0, 0] := by
  constructor
  · with_unfolding_all rfl
  · with_unfolding_all rfl

/-- C5 amended: on every integer-valued input the builder silently emits
a 9-byte payload whose bytes 1-8 encode the value modulo 2^64; negative
or over-range values are wrapped, never rejected.  (Only non-integer or
non-finite inputs make the `BigInt` conversion throw, which cannot happen
in the floored call path.) -/
theorem c5_amended_wrapping (z : ℤ) :
    ∃ p, createInstructionData (.finite (z : ℚ)) = some p ∧
      p.length = 9 ∧ ((decodeLE p.tail : ℕ) : ℤ) = z % 2 ^ 64 := by
  refine ⟨0 :: leBytes8 ((z % 2 ^ 64).toNat), createInstructionData_intCast z, ?_, ?_⟩
  · simp [leBytes8_length]
  · have h0 : 0 ≤ z % 2 ^ 64 := Int.emod_nonneg z (by norm_num)
    have h1 : z % 2 ^ 64 < 2 ^ 64 := Int.emod_lt_of_pos z (by norm_num)
    have hlt : (z % 2 ^ 64).toNat < 2 ^ 64 := by omega
    simp only [List.tail_cons, decodeLE_leBytes8]
    rw [Nat.mod_eq_of_lt hlt]
    omega

/-! ### Claim C6 -/

/-- C6: for every amount between 0 and `MAX_INVESTMENT`, encoding the
floored lamport count into bytes 1-8 of the payload and decoding those
bytes as a little-endian unsigned 64-bit integer recovers exactly
`floor(amount * 1e9)`. -/
theorem c6_roundtrip (a : ℚ) (h0 : 0 ≤ a) (hmax : a ≤ MAX_INVESTMENT) :
    ∃ p, createInstructionData (jsFloor (jsMul (.finite a) (.finite LAMPORTS_PER_SOL))) =
        some p ∧
      ((decodeLE p.tail : ℕ) : ℤ) = ⌊a * 1000000000⌋ := by
  obtain ⟨hz0, hz1⟩ := floor_lamports_bounds a h0 hmax
  set z := ⌊a * 1000000000⌋ with hzdef
  refine ⟨0 :: leBytes8 ((z % 2 ^ 64).toNat), ?_, ?_⟩
  · rw [jsFloor_jsMul_finite, createInstructionData_intCast]
  · have hmod : z % 2 ^ 64 = z := Int.emod_eq_of_lt hz0 hz1
    have hlt : (z % 2 ^ 64).toNat < 2 ^ 64 := by omega
    simp only [List.tail_cons, decodeLE_leBytes8]
    rw [Nat.mod_eq_of_lt hlt]
    omega

/-- Witness for C6 at amount 2: the decoded field is 2000000000. -/
theorem c6_roundtrip_witness :
    ((0 : ℚ) ≤ 2 ∧ (2 : ℚ) ≤ MAX_INVESTMENT) ∧
    (∃ p, createInstructionData
          (jsFloor (jsMul (.finite 2) (.finite LAMPORTS_PER_SOL))) = some p ∧
        ((decodeLE p.tail : ℕ) : ℤ) = ⌊(2 : ℚ) * 1000000000⌋) ∧
    ⌊(2 : ℚ) * 1000000000⌋ = 2000000000 := by
  refine ⟨⟨by norm_num, by rw [MAX_INVESTMENT]; norm_num⟩, ?_, ?_⟩
  · exact c6_roundtrip 2 (by norm_num) (by rw [MAX_INVESTMENT]; norm_num)
  · with_unfolding_all rfl

/-! ### Claim C2 -/

/-- C2: for every input string whose coerced value is below
`MIN_INVESTMENT` or above `MAX_INVESTMENT`, and for every input string
that does not coerce to a number (NaN), the validator returns an error
and never a success value, whatever the presale flag. -/
theorem c2_invalid_rejected (p : Bool) (s : String)
    (h : jsIsNaN (jsStringToNumber s) = true ∨
         jsLt (jsStringToNumber s) (.finite MIN_INVESTMENT) = true ∨
         jsLt (.finite MAX_INVESTMENT) (jsStringToNumber s) = true) :
    (∃ msg, validateAmount p (jsStringToNumber s) = .err msg) ∧
      ∀ n, validateAmount p (jsStringToNumber s) ≠ .ok n := by
  have key : ∃ msg, validateAmount p (jsStringToNumber s) = .err msg := by
    unfold validateAmount
    split_ifs with h1 h2 h3 h4
    · exact ⟨_, rfl⟩
    · exact ⟨_, rfl⟩
    · exact ⟨_, rfl⟩
    · exact ⟨_, rfl⟩
    · exfalso
      rcases h with h | h | h
      · simp [h] at h2
      · exact h3 h
      · exact h4 h
  refine ⟨key, ?_⟩
  obtain ⟨msg, hmsg⟩ := key
  intro n hn
  rw [hmsg] at hn
  exact VResult.noConfusion hn

/-- Witness for C2 at the out-of-range input string 6000. -/
theorem c2_invalid_rejected_witness :
    (jsIsNaN (jsStringToNumber "6000") = true ∨
       jsLt (jsStringToNumber "6000") (.finite MIN_INVESTMENT) = true ∨
       jsLt (.finite MAX_INVESTMENT) (jsStringToNumber "6000") = true) ∧
    ((∃ msg, validateAmount false (jsStringToNumber "6000") = .err msg) ∧
      ∀ n, validateAmount false (jsStringToNumber "6000") ≠ .ok n) :=
  ⟨Or.inr (Or.inr (by with_unfolding_all rfl)),
   c2_invalid_rejected false "6000" (Or.inr (Or.inr (by with_unfolding_all rfl)))⟩

/-! ### Claim C3 -/

/-- C3: for every input string coercing to a finite value between
`MIN_INVESTMENT` and `MAX_INVESTMENT`, with the presale not ended, the
validator returns success carrying the unchanged numeric value and the
stored error is cleared. -/
theorem c3_valid_accepted (s : String) (a : ℚ)
    (hpar : jsStringToNumber s = .finite a)
    (hmin : MIN_INVESTMENT ≤ a) (hmax : a ≤ MAX_INVESTMENT) :
    validateAmount false (jsStringToNumber s) = .ok (.finite a) ∧
      (validateAmount false (jsStringToNumber s)).errorAfter = "" := by
  have h0 : 0 < a := lt_of_lt_of_le (by rw [MIN_INVESTMENT]; norm_num) hmin
  have hok : validateAmount false (.finite a) = .ok (.finite a) := by
    simp [validateAmount, jsIsNaN, jsLe, jsLt, not_lt.mpr hmin, not_lt.mpr hmax, h0]
  rw [hpar, hok]
  exact ⟨rfl, rfl⟩

/-- Witness for C3 at the end-to-end scenario input 1.5. -/
theorem c3_valid_accepted_witness :
    (jsStringToNumber "1.5" = .finite (3 / 2) ∧
       MIN_INVESTMENT ≤ (3 / 2 : ℚ) ∧ (3 / 2 : ℚ) ≤ MAX_INVESTMENT) ∧
    (validateAmount false (jsStringToNumber "1.5") = .ok (.finite (3 / 2)) ∧
      (validateAmount false (jsStringToNumber "1.5")).errorAfter = "") :=
  ⟨⟨by with_unfolding_all rfl, by rw [MIN_INVESTMENT]; norm_num,
     by rw [MAX_INVESTMENT]; norm_num⟩,
   c3_valid_accepted "1.5" (3 / 2) (by with_unfolding_all rfl)
     (by rw [MIN_INVESTMENT]; norm_num) (by rw [MAX_INVESTMENT]; norm_num)⟩

/-! ### Claim C4 -/

/-- C4 counterexample: the input string Infinity does not coerce to a
finite number, yet the validator (presale not ended) reports the
above-maximum error, not the invalid-amount error: +Infinity passes the
`isNaN` and `<= 0` checks and is caught by the `> MAX_INVESTMENT`
comparison. -/
theorem c4_counterexample :
    jsStringToNumber "Infinity" = .inf ∧
      validateAmount false (jsStringToNumber "Infinity") =
        .err "Maximum investment is 5000 SOL" ∧
      validateAmount false (jsStringToNumber "Infinity") ≠
        .err "Please enter a valid amount" := by
  refine ⟨by with_unfolding_all rfl, by with_unfolding_all rfl, ?_⟩
  with_unfolding_all decide

/-- C4 amended: with the presale not ended, every input string coercing
to NaN, and every input string coercing to a value that is `<= 0` in the
JavaScript order (including -Infinity), gets specifically the
invalid-amount error; the input Infinity instead gets the above-maximum
error. -/
theorem c4_amended_invalid_error (s : String)
    (h : jsIsNaN (jsStringToNumber s) = true ∨
         jsLe (jsStringToNumber s) (.finite 0) = true) :
    validateAmount false (jsStringToNumber s) = .err "Please enter a valid amount" ∧
      validateAmount false (jsStringToNumber "Infinity") =
        .err "Maximum investment is 5000 SOL" := by
  constructor
  · have hb : (jsIsNaN (jsStringToNumber s) || jsLe (jsStringToNumber s) (.finite 0)) = true := by
      rcases h with h | h <;> simp [h]
    simp [validateAmount, hb]
  · with_unfolding_all rfl

/-- Witness for the amended C4 at the non-numeric input abc. -/
theorem c4_amended_invalid_error_witness :
    (jsIsNaN (jsStringToNumber "abc") = true ∨
       jsLe (jsStringToNumber "abc") (.finite 0) = true) ∧
    (validateAmount false (jsStringToNumber "abc") = .err "Please enter a valid amount" ∧
      validateAmount false (jsStringToNumber "Infinity") =
        .err "Maximum investment is 5000 SOL") :=
  ⟨Or.inl (by with_unfolding_all rfl),
   c4_amended_invalid_error "abc" (Or.inl (by with_unfolding_all rfl))⟩

/-! ### Claim C10 -/

/-- C10: the validator parses with JavaScript Number coercion: the empty
string and every white-space-only string coerce to 0 and are rejected
with the invalid-amount error, while the hexadecimal string 0x10 (value
16) and the scientific-notation string 1e2 (value 100), both within the
investment bounds, are accepted as valid amounts. -/
theorem c10_number_coercion :
    (∀ s : String, s.toList.all isJsWhitespace = true →
        validateAmount false (jsStringToNumber s) = .err "Please enter a valid amount") ∧
      jsStringToNumber "" = .finite 0 ∧
      jsStringToNumber "0x10" = .finite 16 ∧
      validateAmount false (jsStringToNumber "0x10") = .ok (.finite 16) ∧
      jsStringToNumber "1e2" = .finite 100 ∧
      validateAmount false (jsStringToNumber "1e2") = .ok (.finite 100) := by
  have hall : ∀ s : String, s.toList.all isJsWhitespace = true →
      jsStringToNumber s = .finite 0 := by
    intro s hs
    have h1 : s.toList.dropWhile isJsWhitespace = [] :=
      List.dropWhile_eq_nil_iff.mpr (by simpa [List.all_eq_true] using hs)
    unfold jsStringToNumber trimJs
    rw [h1]
    rfl
  refine ⟨?_, by with_unfolding_all rfl, by with_unfolding_all rfl,
    by with_unfolding_all rfl, by with_unfolding_all rfl, by with_unfolding_all rfl⟩
  intro s hs
  rw [hall s hs]
  with_unfolding_all rfl

/-- Witness for C10 on the white-space-only string of one space. -/
theorem c10_number_coercion_witness :
    (" ".toList.all isJsWhitespace = true) ∧
    validateAmount false (jsStringToNumber " ") = .err "Please enter a valid amount" :=
  ⟨by decide, c10_number_coercion.1 " " (by decide)⟩

/-! ### Concrete runs used by the submission-routine witnesses -/

/-- An environment whose balance query returns 5 lamports, below the
1500000000 lamports required for a 1.5 SOL investment. -/
def envLowBalance : Env :=
  ⟨some "w", false, true, Except.ok 5, Except.ok ⟨"bh", 0⟩, Except.ok (),
   Except.ok "sig", Except.ok ()⟩

/-- An environment in which every collaborator call succeeds and the
balance is ample. -/
def envAllOk : Env :=
  ⟨some "w", false, true, Except.ok 10000000000000, Except.ok ⟨"bh", 0⟩,
   Except.ok (), Except.ok "sig", Except.ok ()⟩

/-- Component state with the amount input 1.5 and no pending error. -/
def stateAmount15 : CompState := ⟨"1.5", "", false⟩

/-! ### Claim C7 -/

/-- C7: in every run in which the balance query returns an amount
strictly below the required lamport count, the submission fails with the
insufficient-balance error and the wallet signature request is never
made. -/
theorem c7_insufficient_balance (env : Env) (s : CompState) (w : String)
    (n : JSNum) (b : ℤ)
    (hw : env.walletAddress = some w)
    (hv : validateAmount env.isPresaleEnded (jsStringToNumber s.amount) = .ok n)
    (hsol : env.windowSolana = true)
    (hb : env.getBalanceRes = .ok b)
    (hlt : jsLt (.finite (b : ℚ))
        (jsFloor (jsMul (jsStringToNumber s.amount) (.finite LAMPORTS_PER_SOL))) = true) :
    (handleInvest env s).2.2 =
        .failed (.insufficientBalance
          (jsFloor (jsMul (jsStringToNumber s.amount) (.finite LAMPORTS_PER_SOL))) b) ∧
      Effect.signTransaction ∉ (handleInvest env s).2.1 := by
  simp [handleInvest, runTry, hw, hv, hsol, hb, hlt]

/-- Witness for C7: amount 1.5, balance 5 lamports. -/
theorem c7_insufficient_balance_witness :
    (envLowBalance.walletAddress = some "w" ∧
       validateAmount envLowBalance.isPresaleEnded
         (jsStringToNumber stateAmount15.amount) = .ok (.finite (3 / 2)) ∧
       envLowBalance.windowSolana = true ∧
       envLowBalance.getBalanceRes = .ok 5 ∧
       jsLt (.finite ((5 : ℤ) : ℚ))
         (jsFloor (jsMul (jsStringToNumber stateAmount15.amount)
           (.finite LAMPORTS_PER_SOL))) = true) ∧
    ((handleInvest envLowBalance stateAmount15).2.2 =
        .failed (.insufficientBalance
          (jsFloor (jsMul (jsStringToNumber stateAmount15.amount)
            (.finite LAMPORTS_PER_SOL))) 5) ∧
      Effect.signTransaction ∉ (handleInvest envLowBalance stateAmount15).2.1) :=
  ⟨⟨rfl, by with_unfolding_all rfl, rfl, rfl, by with_unfolding_all rfl⟩,
   c7_insufficient_balance envLowBalance stateAmount15 "w" (.finite (3 / 2)) 5
     rfl (by with_unfolding_all rfl) rfl rfl (by with_unfolding_all rfl)⟩

/-! ### Claim C8 -/

/-- C8: in every run, success clears the amount input and records the
deposit of the coerced amount, while failure at any step after
validation leaves the amount input unchanged. -/
theorem c8_frame (env : Env) (s : CompState) :
    (∀ sig, (handleInvest env s).2.2 = .success sig →
        (handleInvest env s).1.amount = "" ∧
        Effect.addDeposit (jsStringToNumber s.amount) ∈ (handleInvest env s).2.1) ∧
      ∀ e, (handleInvest env s).2.2 = .failed e →
        (handleInvest env s).1.amount = s.amount := by
  rcases hw : env.walletAddress with _ | w
  · simp [handleInvest, hw]
  · rcases hv : validateAmount env.isPresaleEnded (jsStringToNumber s.amount) with msg | n
    · simp [handleInvest, hw, hv]
    · rcases ht : (runTry env w (jsStringToNumber s.amount)).2 with e | sig
      · simp [handleInvest, hw, hv, ht]
      · simp [handleInvest, hw, hv, ht]

/-- Witness for C8: the all-successful run on amount 1.5 clears the
input and records the 1.5 deposit. -/
theorem c8_frame_witness :
    ((handleInvest envAllOk stateAmount15).2.2 = .success "sig") ∧
    ((handleInvest envAllOk stateAmount15).1.amount = "" ∧
      Effect.addDeposit (jsStringToNumber stateAmount15.amount) ∈
        (handleInvest envAllOk stateAmount15).2.1) :=
  ⟨by with_unfolding_all rfl,
   (c8_frame envAllOk stateAmount15).1 "sig" (by with_unfolding_all rfl)⟩

/-! ### Claim C9 -/

/-- C9: every run that sets the processing flag ends with the flag
cleared and with the clearing write as its last effect (the `finally`
block), on the success path and on every error path; a run that never
sets the flag leaves it as it was. -/
theorem c9_processing_flag (env : Env) (s : CompState) :
    (Effect.setProcessing true ∈ (handleInvest env s).2.1 →
        (handleInvest env s).1.isProcessing = false ∧
        (handleInvest env s).2.1.getLast? = some (Effect.setProcessing false)) ∧
      (Effect.setProcessing true ∉ (handleInvest env s).2.1 →
        (handleInvest env s).1.isProcessing = s.isProcessing) := by
  rcases hw : env.walletAddress with _ | w
  · simp [handleInvest, hw]
  · rcases hv : validateAmount env.isPresaleEnded (jsStringToNumber s.amount) with msg | n
    · simp [handleInvest, hw, hv]
    · rcases ht : (runTry env w (jsStringToNumber s.amount)).2 with e | sig
      · constructor
        · intro _
          refine ⟨by simp [handleInvest, hw, hv, ht], ?_⟩
          simp only [handleInvest, hw, hv, ht]
          rw [List.getLast?_append_of_ne_nil _ (by simp)]
          rfl
        · intro hmem
          exfalso
          exact hmem (by simp [handleInvest, hw, hv, ht])
      · constructor
        · intro _
          refine ⟨by simp [handleInvest, hw, hv, ht], ?_⟩
          simp only [handleInvest, hw, hv, ht]
          rw [List.getLast?_append_of_ne_nil _ (by simp)]
          rfl
        · intro hmem
          exfalso
          exact hmem (by simp [handleInvest, hw, hv, ht])

/-- Witness for C9 on the all-successful run. -/
theorem c9_processing_flag_witness :
    (Effect.setProcessing true ∈ (handleInvest envAllOk stateAmount15).2.1) ∧
    ((handleInvest envAllOk stateAmount15).1.isProcessing = false ∧
      (handleInvest envAllOk stateAmount15).2.1.getLast? =
        some (Effect.setProcessing false)) :=
  ⟨by with_unfolding_all decide,
   (c9_processing_flag envAllOk stateAmount15).1 (by with_unfolding_all decide)⟩

end Kebapp
